import Mathlib

/-!
Verification of the merge-evaluation engine of the spork benchmark scripts.

This file gives a shallow embedding of the evaluation code in
src/scripts/benchmark/{evaluate.py, javautils.py, command.py}:

* pure text processing (conflict extraction, line splitting) is translated
  directly into Lean functions over lists of strings;
* calls to external tools (git diff, gumtree, sootdiff, pkgextractor,
  duplicate-checkcast-remover, javap) are parameters of the embedded
  functions: a tool invocation is described by its exit code and captured
  output, or by the fact that launching it raised an exception;
* Python exceptions are modelled with Except over an explicit error type,
  and a Python local variable that may be read before assignment is
  modelled as an Option value, with a dedicated read operation that fails
  with an UnboundLocalError when the variable is unset;
* functions whose observable behaviour includes whether a given external
  tool was invoked at all return a small trace structure recording the
  result together with invocation flags.

Logging calls are not modelled; where the source logs and continues, the
embedding simply continues.
-/

/-- Python exception kinds raised by the embedded code. -/
inductive PyError where
  | valueError
  | runtimeError
  | fileExistsError
  | unboundLocalError
  | indexError
  | subprocessError
deriving DecidableEq, Repr

/-- Check whether the character list given second begins with the character
list given first, mirroring str.startswith on the underlying characters. -/
def charsStartWith : List Char → List Char → Bool
  | [], _ => true
  | _ :: _, [] => false
  | p :: ps, c :: cs => p = c && charsStartWith ps cs

/-- Embedding of Python str.startswith: pyStartsWith s p is true when p is a
prefix of s. -/
def pyStartsWith (s p : String) : Bool :=
  charsStartWith p.data s.data

/-- Embedding of Python str.rstrip(): drop trailing whitespace characters. -/
def pyRstrip (s : String) : String :=
  ⟨(s.data.reverse.dropWhile Char.isWhitespace).reverse⟩

/-- Embedding of Python str.strip(): drop leading and trailing whitespace. -/
def pyStrip (s : String) : String :=
  ⟨((s.data.dropWhile Char.isWhitespace).reverse.dropWhile Char.isWhitespace).reverse⟩

/-- Helper for pySplit: accumulate the current field (reversed) while walking
the character list, splitting at the separator character. -/
def pySplitAux (sep : Char) : List Char → List Char → List String
  | [], acc => [⟨acc.reverse⟩]
  | c :: cs, acc =>
      if c = sep then ⟨acc.reverse⟩ :: pySplitAux sep cs []
      else pySplitAux sep cs (c :: acc)

/-- Embedding of Python s.split(sep) for a one-character separator.  Like the
Python original, the result is never empty (splitting the empty string yields
a singleton list holding the empty string). -/
def pySplitOn (sep : Char) (s : String) : List String :=
  pySplitAux sep s.data []

/-- Embedding of Python s.split(chr(10)), the newline split used on tool
output. -/
def pySplit (s : String) : List String :=
  pySplitOn '\n' s

theorem pySplitAux_ne_nil (sep : Char) (cs acc : List Char) :
    pySplitAux sep cs acc ≠ [] := by
  induction cs generalizing acc with
  | nil => simp [pySplitAux]
  | cons c cs ih =>
      simp only [pySplitAux]
      split
      · simp
      · exact ih _

theorem pySplit_ne_nil (s : String) : pySplit s ≠ [] :=
  pySplitAux_ne_nil '\n' s.data []

/-! Conflict markers, as in evaluate.py. -/

def START_CONFLICT : String := "<<<<<<<"
def MID_CONFLICT : String := "======="
def END_CONFLICT : String := ">>>>>>>"

/-- Embedding of the MergeConflict dataclass of evaluate.py: the lines
contributed by the left side and by the right side of one conflict region. -/
structure MergeConflict where
  left : List String
  right : List String
deriving DecidableEq, Repr

/-- Embedding of MergeConflict.num_lines: the amount of conflicting lines. -/
def MergeConflict.num_lines (c : MergeConflict) : Nat :=
  c.left.length + c.right.length

/-- Embedding of itertools.takewhile over a shared iterator, as used in
extract_conflicts: collect lines while they do not start with the marker;
the terminating marker line itself is consumed (dropped) from the remainder,
exactly as the Python iterator protocol does. Returns the collected lines
and the remaining lines after the marker. -/
def takeUntilMarker (m : String) : List String → List String × List String
  | [] => ([], [])
  | l :: ls =>
      if pyStartsWith l m then ([], ls)
      else
        let r := takeUntilMarker m ls
        (l :: r.1, r.2)

theorem takeUntilMarker_snd_length_le (m : String) (ls : List String) :
    (takeUntilMarker m ls).2.length ≤ ls.length := by
  induction ls with
  | nil => simp [takeUntilMarker]
  | cons l ls ih =>
      simp only [takeUntilMarker]
      split
      · simp
      · simpa using Nat.le_succ_of_le ih

theorem takeUntil_twice_length_lt (line : String) (rest : List String) :
    (takeUntilMarker END_CONFLICT (takeUntilMarker MID_CONFLICT rest).2).2.length <
      (line :: rest).length := by
  have h1 := takeUntilMarker_snd_length_le MID_CONFLICT rest
  have h2 :=
    takeUntilMarker_snd_length_le END_CONFLICT (takeUntilMarker MID_CONFLICT rest).2
  simp only [List.length_cons]
  omega

/-- Embedding of extract_conflicts of evaluate.py, over the list of lines of
the file: scan for a line starting with the start marker, then greedily take
lines up to (not including) the mid marker as the left side and lines up to
(not including) the end marker as the right side, and resume scanning after
the end marker. -/
def extract_conflicts (lines : List String) : List MergeConflict :=
  match lines with
  | [] => []
  | line :: rest =>
      if pyStartsWith line START_CONFLICT then
        let leftPart := takeUntilMarker MID_CONFLICT rest
        let rightPart := takeUntilMarker END_CONFLICT leftPart.2
        MergeConflict.mk leftPart.1 rightPart.1 :: extract_conflicts rightPart.2
      else
        extract_conflicts rest
termination_by lines.length
decreasing_by
  · exact takeUntil_twice_length_lt _ _
  · simp only [List.length_cons]
    omega

theorem extract_conflicts_nil : extract_conflicts [] = [] := by
  rw [extract_conflicts]

theorem extract_conflicts_cons (line : String) (rest : List String) :
    extract_conflicts (line :: rest) =
      if pyStartsWith line START_CONFLICT then
        MergeConflict.mk (takeUntilMarker MID_CONFLICT rest).1
            (takeUntilMarker END_CONFLICT (takeUntilMarker MID_CONFLICT rest).2).1 ::
          extract_conflicts (takeUntilMarker END_CONFLICT (takeUntilMarker MID_CONFLICT rest).2).2
      else extract_conflicts rest := by
  rw [extract_conflicts]

/-! Specification model of a well-formed conflict-marked document: a document
is a sequence of segments, each either a normal line or a complete conflict
region (start marker line, left content, mid marker line, right content, end
marker line). -/

/-- Structured view of a conflict-marked document used to state what a
well-formed input to extract_conflicts looks like. -/
inductive Segment where
  | normal (line : String)
  | conflict (startLine : String) (leftLines : List String) (midLine : String)
      (rightLines : List String) (endLine : String)
deriving DecidableEq, Repr

/-- A content line carries none of the three conflict markers. -/
def noMarkerLine (l : String) : Prop :=
  pyStartsWith l START_CONFLICT = false ∧ pyStartsWith l MID_CONFLICT = false ∧
    pyStartsWith l END_CONFLICT = false

instance (l : String) : Decidable (noMarkerLine l) := by
  unfold noMarkerLine
  infer_instance

/-- Well-formedness of one segment: marker lines carry their markers, content
lines carry none (so conflict regions are disjoint and do not nest). -/
def Segment.wf : Segment → Prop
  | .normal l => noMarkerLine l
  | .conflict s left m right e =>
      pyStartsWith s START_CONFLICT = true ∧ (∀ l ∈ left, noMarkerLine l) ∧
        pyStartsWith m MID_CONFLICT = true ∧ (∀ l ∈ right, noMarkerLine l) ∧
        pyStartsWith e END_CONFLICT = true

instance (s : Segment) : Decidable s.wf := by
  cases s with
  | normal l => exact inferInstanceAs (Decidable (noMarkerLine l))
  | conflict a b c d e => exact inferInstanceAs (Decidable (_ ∧ _ ∧ _ ∧ _ ∧ _))

/-- Flatten one segment back into its document lines. -/
def Segment.render : Segment → List String
  | .normal l => [l]
  | .conflict s left m right e => s :: (left ++ m :: (right ++ [e]))

/-- Flatten a structured document into its lines. -/
def renderDoc (segs : List Segment) : List String :=
  (segs.map Segment.render).flatten

/-- The conflict regions of a structured document, in document order. -/
def docConflicts (segs : List Segment) : List MergeConflict :=
  segs.filterMap fun seg =>
    match seg with
    | .normal _ => none
    | .conflict _ left _ right _ => some (MergeConflict.mk left right)

theorem takeUntilMarker_spec (m markerLine : String) (content tail : List String)
    (hc : ∀ l ∈ content, pyStartsWith l m = false)
    (hm : pyStartsWith markerLine m = true) :
    takeUntilMarker m (content ++ markerLine :: tail) = (content, tail) := by
  induction content with
  | nil => simp [takeUntilMarker, hm]
  | cons c cs ih =>
      have hc0 : pyStartsWith c m = false := hc c (by simp)
      have hcs : ∀ l ∈ cs, pyStartsWith l m = false := fun l hl => hc l (by simp [hl])
      simp [takeUntilMarker, hc0, ih hcs]

/-- C2 (amended): for every well-formed conflict-marked document,
extract_conflicts returns exactly the document's conflict regions in document
order, each conflict's left side being the lines strictly between its start
marker and its mid marker and its right side the lines strictly between its
mid marker and its end marker (either side may be empty). -/
theorem C2_extract_conflicts_spec (segs : List Segment) (hwf : ∀ s ∈ segs, s.wf) :
    extract_conflicts (renderDoc segs) = docConflicts segs := by
  induction segs with
  | nil => simp [renderDoc, docConflicts, extract_conflicts_nil]
  | cons seg rest ih =>
      have hseg : seg.wf := hwf seg (by simp)
      have hrest : ∀ s ∈ rest, s.wf := fun s hs => hwf s (by simp [hs])
      cases seg with
      | normal l =>
          have hl : pyStartsWith l START_CONFLICT = false := hseg.1
          have hr : renderDoc (Segment.normal l :: rest) = l :: renderDoc rest := by
            simp [renderDoc, Segment.render]
          rw [hr, extract_conflicts_cons, if_neg (by simp [hl]), ih hrest]
          simp [docConflicts]
      | conflict s left m right e =>
          obtain ⟨hs, hleft, hm, hright, he⟩ := hseg
          have hr : renderDoc (Segment.conflict s left m right e :: rest) =
              s :: (left ++ m :: (right ++ e :: renderDoc rest)) := by
            simp [renderDoc, Segment.render]
          have hmid : takeUntilMarker MID_CONFLICT (left ++ m :: (right ++ e :: renderDoc rest)) =
              (left, right ++ e :: renderDoc rest) :=
            takeUntilMarker_spec MID_CONFLICT m left (right ++ e :: renderDoc rest)
              (fun l hl => (hleft l hl).2.1) hm
          have hend : takeUntilMarker END_CONFLICT (right ++ e :: renderDoc rest) =
              (right, renderDoc rest) :=
            takeUntilMarker_spec END_CONFLICT e right (renderDoc rest)
              (fun l hl => (hright l hl).2.2) he
          rw [hr, extract_conflicts_cons, if_pos hs, hmid]
          simp only [hend]
          rw [ih hrest]
          simp [docConflicts]

/-- Document used to refute the non-emptiness part of the original claim: one
well-formed conflict region whose two sides are both empty, as produced for a
pure insertion/deletion conflict. -/
def c2CexSegments : List Segment :=
  [Segment.conflict "<<<<<<< LEFT\n" [] "=======\n" [] ">>>>>>> RIGHT\n"]

/-- C2 counterexample: a well-formed document with exactly one conflict region
for which extract_conflicts returns a MergeConflict whose left and right
sequences are both empty, refuting the claim that both sequences are always
non-empty on well-formed input. -/
theorem C2_counterexample :
    (∀ s ∈ c2CexSegments, s.wf) ∧
    (docConflicts c2CexSegments).length = 1 ∧
    extract_conflicts (renderDoc c2CexSegments) = [MergeConflict.mk [] []] ∧
    (MergeConflict.mk ([] : List String) ([] : List String)).left.length = 0 := by
  refine ⟨by decide, by decide, ?_, by decide⟩
  have h : renderDoc c2CexSegments =
      ["<<<<<<< LEFT\n", "=======\n", ">>>>>>> RIGHT\n"] := by decide
  have hmid : takeUntilMarker MID_CONFLICT ["=======\n", ">>>>>>> RIGHT\n"] =
      (([] : List String), [">>>>>>> RIGHT\n"]) := by decide
  have hend : takeUntilMarker END_CONFLICT [">>>>>>> RIGHT\n"] =
      (([] : List String), ([] : List String)) := by decide
  rw [h, extract_conflicts_cons, if_pos (by decide), hmid]
  simp only
  rw [hend]
  simp [extract_conflicts_nil]

/-- Document used as the concrete witness input of C2: one normal line and one
conflict region with two left lines and one right line. -/
def c2WitnessSegments : List Segment :=
  [Segment.normal "int x = 0;\n",
   Segment.conflict "<<<<<<< left\n" ["a\n", "b\n"] "=======\n" ["c\n"] ">>>>>>> right\n"]

/-- C2 witness: the amended theorem applied to a concrete well-formed document. -/
theorem C2_extract_conflicts_spec_witness :
    extract_conflicts (renderDoc c2WitnessSegments) =
      [MergeConflict.mk ["a\n", "b\n"] ["c\n"]] := by
  rw [C2_extract_conflicts_spec c2WitnessSegments (by decide)]
  decide

/-! Embedding of evaluation_result of evaluate.py. -/

/-- Modelled from the spec: the MergeOutcome enumeration of containers.py
(not present under src/), listing SUCCESS, FAILURE and ABORTED outcomes. -/
inductive MergeOutcome where
  | SUCCESS
  | FAILURE
  | ABORTED
deriving DecidableEq, Repr

/-- Inputs of evaluation_result: the outcome of the merge, the lines of the
replayed (merged) file, and the outcomes of the four external diff
measurements performed in the SUCCESS branch.  The git diff calls cannot
raise, so they are given as the returned edit scripts; the two gumtree calls
can raise, so they are given as Except values. -/
structure MergeResultInputs where
  outcome : MergeOutcome
  replayedLines : List String
  gitDiff : List String
  gitDiffNorm : List String
  gumtreeDiff : Except PyError (List String)
  gumtreeDiffNorm : Except PyError (List String)
deriving Repr

/-- Local-variable environment of evaluation_result.  Each field models one
Python local of the metric variables; none means the local has not been
assigned yet. -/
structure EvalLocals where
  git_diff_size_norm : Option Int
  gumtree_diff_size : Option Int
  git_diff_size : Option Int
  conflict_size : Option Int
  num_conflicts : Option Int
  gumtree_diff_size_norm : Option Int
deriving DecidableEq, Repr

/-- Read a Python local; reading an unassigned local raises UnboundLocalError. -/
def readLocal (x : Option Int) : Except PyError Int :=
  match x with
  | none => Except.error PyError.unboundLocalError
  | some v => Except.ok v

/-- Embedding of the MergeEvaluation record of containers.py restricted to
the outcome and the six metric fields that evaluation_result computes; the
metadata fields (directory, command, runtime, commit and blob hashes) are
copied verbatim from external collaborators and are not modelled. -/
structure MergeEvaluation where
  outcome : MergeOutcome
  gumtree_diff_size : Int
  gumtree_diff_size_norm : Int
  git_diff_size : Int
  git_diff_size_norm : Int
  conflict_size : Int
  num_conflicts : Int
deriving DecidableEq, Repr

/-- Embedding of evaluation_result of evaluate.py.  The initial environment
mirrors the source exactly: the source initializes git_diff_size_norm,
gumtree_diff_size, git_diff_size (and gumtree_diff_size a second time,
shadowing the first assignment), conflict_size and num_conflicts, but never
initializes gumtree_diff_size_norm before the branch on the outcome, so that
local stays unassigned (none) on the non-SUCCESS path and is read at the
record construction site. -/
def evaluation_result (mr : MergeResultInputs) : Except PyError MergeEvaluation := do
  let init : EvalLocals :=
    { git_diff_size_norm := some (-1)
      gumtree_diff_size := some (-1)
      git_diff_size := some (-1)
      conflict_size := some 0
      num_conflicts := some 0
      gumtree_diff_size_norm := none }
  let locals : EvalLocals ←
    if mr.outcome = MergeOutcome.SUCCESS then do
      let conflicts := extract_conflicts mr.replayedLines
      let g ← mr.gumtreeDiff
      let gn ← mr.gumtreeDiffNorm
      pure { init with
        conflict_size := some ((conflicts.map MergeConflict.num_lines).sum : Int)
        num_conflicts := some (conflicts.length : Int)
        git_diff_size := some (mr.gitDiff.length : Int)
        git_diff_size_norm := some (mr.gitDiffNorm.length : Int)
        gumtree_diff_size := some (g.length : Int)
        gumtree_diff_size_norm := some (gn.length : Int) }
    else
      pure init
  let gds ← readLocal locals.gumtree_diff_size
  let gdsn ← readLocal locals.gumtree_diff_size_norm
  let gits ← readLocal locals.git_diff_size
  let gitsn ← readLocal locals.git_diff_size_norm
  let cs ← readLocal locals.conflict_size
  let nc ← readLocal locals.num_conflicts
  pure
    { outcome := mr.outcome
      gumtree_diff_size := gds
      gumtree_diff_size_norm := gdsn
      git_diff_size := gits
      git_diff_size_norm := gitsn
      conflict_size := cs
      num_conflicts := nc }

/-- C1: on every merge result whose outcome is not SUCCESS, evaluation_result
raises UnboundLocalError instead of returning a MergeEvaluation with all four
diff sizes at the sentinel -1 — the source never initializes
gumtree_diff_size_norm (it initializes gumtree_diff_size twice instead) and
reads it at the record construction site. -/
theorem C1_evaluation_result_nonsuccess_raises (mr : MergeResultInputs)
    (h : mr.outcome ≠ MergeOutcome.SUCCESS) :
    evaluation_result mr = Except.error PyError.unboundLocalError := by
  simp [evaluation_result, h, readLocal, Bind.bind, Except.bind, Pure.pure, Except.pure]

/-- Concrete failing input of C1: a FAILURE outcome with arbitrary file
contents and tool outputs. -/
def c1FailingInput : MergeResultInputs :=
  { outcome := MergeOutcome.FAILURE
    replayedLines := []
    gitDiff := []
    gitDiffNorm := []
    gumtreeDiff := Except.ok []
    gumtreeDiffNorm := Except.ok [] }

/-- C1 witness: the theorem applied at the concrete FAILURE input. -/
theorem C1_evaluation_result_nonsuccess_raises_witness :
    evaluation_result c1FailingInput = Except.error PyError.unboundLocalError :=
  C1_evaluation_result_nonsuccess_raises c1FailingInput (by decide)

/-! Model of the EvaluationSet regression comparison used by
run_merge_and_compare in command.py. -/

/-- Modelled from the spec: one MergeEvaluation-shaped record of an
EvaluationSet, keyed implicitly by merge directory plus merge command,
carrying the outcome and the tree-structured normalized diff size that
governs the ordering. -/
structure EvalRecord where
  merge_dir : String
  merge_cmd : String
  outcome : MergeOutcome
  gumtree_diff_size_norm : Int
deriving DecidableEq, Repr

/-- Modelled from the spec: the implicit key of an EvaluationSet record. -/
def recordKey (r : EvalRecord) : String × String :=
  (r.merge_dir, r.merge_cmd)

/-- Modelled from the spec: the governing ordering of the regression gate —
a SUCCESS outcome beats any non-SUCCESS outcome regardless of metrics, and
between two SUCCESS outcomes the candidate must have smaller-or-equal
tree-structured normalized diff size. -/
def not_strictly_worse (cand ref : EvalRecord) : Bool :=
  match cand.outcome, ref.outcome with
  | MergeOutcome.SUCCESS, MergeOutcome.SUCCESS =>
      cand.gumtree_diff_size_norm ≤ ref.gumtree_diff_size_norm
  | MergeOutcome.SUCCESS, _ => true
  | _, MergeOutcome.SUCCESS => false
  | _, _ => true

/-- Modelled from the spec: Evaluations.at_least_as_good_as of analyze.py
(analyze.py is not part of the sources provided; the comparison is modelled
from the spec sections on EvaluationSet).  Every record of the reference set
must have a candidate record with the same key that is not strictly worse; a
reference record with no matching candidate record counts as a regression. -/
def at_least_as_good_as (cand ref : List EvalRecord) : Bool :=
  ref.all fun r =>
    match cand.find? (fun c => decide (recordKey c = recordKey r)) with
    | none => false
    | some c => not_strictly_worse c r

theorem find?_eq_of_mem_nodup (cand : List EvalRecord) (c : EvalRecord)
    (hnd : (cand.map recordKey).Nodup) (hc : c ∈ cand) (k : String × String)
    (hk : recordKey c = k) :
    cand.find? (fun x => decide (recordKey x = k)) = some c := by
  induction cand with
  | nil => simp at hc
  | cons a rest ih =>
      simp only [List.map_cons, List.nodup_cons] at hnd
      rcases List.mem_cons.mp hc with hca | hcr
      · subst hca
        simp [List.find?, hk]
      · have hne : recordKey a ≠ k := by
          intro hak
          exact hnd.1 (hak.trans hk.symm ▸ List.mem_map_of_mem recordKey hcr)
        simp only [List.find?]
        rw [decide_eq_false hne]
        exact ih hnd.2 hcr

/-- C3: the regression gate passes exactly when every scenario of the
reference set has a candidate record with the same key that is not strictly
worse under the governing ordering — SUCCESS beats non-SUCCESS regardless of
metrics, two SUCCESS outcomes compare by normalized tree diff size — so a
reference scenario missing from the candidate set fails the comparison. -/
theorem C3_at_least_as_good_as_iff (cand ref : List EvalRecord)
    (hnd : (cand.map recordKey).Nodup) :
    at_least_as_good_as cand ref = true ↔
      ∀ r ∈ ref, ∃ c ∈ cand, recordKey c = recordKey r ∧ not_strictly_worse c r = true := by
  unfold at_least_as_good_as
  rw [List.all_eq_true]
  constructor
  · intro h r hr
    have hm := h r hr
    cases hfind : cand.find? (fun c => decide (recordKey c = recordKey r)) with
    | none => rw [hfind] at hm; simp at hm
    | some c =>
        rw [hfind] at hm
        refine ⟨c, List.mem_of_find?_eq_some hfind, ?_, hm⟩
        simpa using List.find?_some hfind
  · intro h r hr
    obtain ⟨c, hcmem, hkey, hns⟩ := h r hr
    rw [find?_eq_of_mem_nodup cand c hnd hcmem (recordKey r) hkey]
    exact hns

/-- Candidate record of the C3 witness: a SUCCESS outcome. -/
def c3CandRecord : EvalRecord :=
  { merge_dir := "proj/merge1"
    merge_cmd := "spork"
    outcome := MergeOutcome.SUCCESS
    gumtree_diff_size_norm := 5 }

/-- Reference record of the C3 witness: same scenario key, FAILURE outcome. -/
def c3RefRecord : EvalRecord :=
  { merge_dir := "proj/merge1"
    merge_cmd := "spork"
    outcome := MergeOutcome.FAILURE
    gumtree_diff_size_norm := -1 }

/-- C3 witness: the characterization applied to concrete one-record sets
where the candidate has SUCCESS and the reference has FAILURE. -/
theorem C3_at_least_as_good_as_iff_witness :
    at_least_as_good_as [c3CandRecord] [c3RefRecord] = true := by
  refine (C3_at_least_as_good_as_iff [c3CandRecord] [c3RefRecord] (by decide)).mpr ?_
  intro r hr
  rw [List.mem_singleton] at hr
  subst hr
  exact ⟨c3CandRecord, by decide⟩

/-! Embeddings of javautils.py. -/

deriving instance DecidableEq for Except

/-- Outcome of launching one external tool: either the process ran and exited
with a status code, or launching it raised an exception (this covers
subprocess.TimeoutExpired and any other exception caught by the bare except
clauses of the source). -/
inductive ToolRun where
  | exits (code : Int)
  | raises
deriving DecidableEq, Repr

/-- Embedding of the name part of pathlib paths: the final nonempty component
of the slash-separated path string. -/
def pathName (p : String) : String :=
  (((pySplitOn '/' p).filter (fun s => s ≠ "")).getLast?).getD ""

/-- Index of the last occurrence of a character in a list, if any. -/
def rfindChar (c : Char) : List Char → Option Nat
  | [] => none
  | x :: xs =>
      match rfindChar c xs with
      | some i => some (i + 1)
      | none => if x = c then some 0 else none

/-- Embedding of pathlib suffix: with i the index of the last dot of the
final path component, the suffix is the component from i on when
0 < i < length - 1, and empty otherwise (mirroring the pathlib source). -/
def pathSuffix (p : String) : String :=
  let n := pathName p
  match rfindChar '.' n.data with
  | none => ""
  | some i => if 0 < i ∧ i < n.data.length - 1 then ⟨n.data.drop i⟩ else ""

/-- Result and invocation trace of remove_duplicate_checkcasts. -/
structure CheckcastTrace where
  result : Except PyError Unit
  toolInvoked : Bool
deriving DecidableEq, Repr

/-- Embedding of remove_duplicate_checkcasts of javautils.py: a path without
the .class suffix raises ValueError before the canonicalization tool runs; a
raised exception while running the tool (e.g. timeout) propagates; a non-zero
exit status raises RuntimeError. -/
def remove_duplicate_checkcasts (path : String) (tool : ToolRun) : CheckcastTrace :=
  if pathSuffix path ≠ ".class" then
    { result := Except.error PyError.valueError, toolInvoked := false }
  else
    match tool with
    | ToolRun.raises => { result := Except.error PyError.subprocessError, toolInvoked := true }
    | ToolRun.exits c =>
        if c ≠ 0 then { result := Except.error PyError.runtimeError, toolInvoked := true }
        else { result := Except.ok (), toolInvoked := true }

/-- Outcome of one pkgextractor invocation: either launching raised, or the
process exited with a status code and captured output. -/
inductive PkgRun where
  | raises
  | exits (code : Int) (output : String)
deriving DecidableEq, Repr

/-- Embedding of extract_java_package of javautils.py: an exception while
invoking pkgextractor is logged and yields the empty string; a non-zero exit
status raises RuntimeError; otherwise the stripped stdout is returned. -/
def extract_java_package (run : PkgRun) : Except PyError String :=
  match run with
  | PkgRun.raises => Except.ok ""
  | PkgRun.exits c out =>
      if c ≠ 0 then Except.error PyError.runtimeError
      else Except.ok (pyStrip out)

/-- Inputs of compare_classfiles: the base names of the two classfiles, the
results of the two extract_java_package calls, whether staging the replayed
classfile into the package directory succeeds (copy_to_pkg_dir raises
FileExistsError when the destination already exists), and the sootdiff
invocation outcome. -/
structure CompareClassfilesEnv where
  expectedName : String
  replayedName : String
  expectedPkg : Except PyError String
  replayedPkg : Except PyError String
  copyOk : Bool
  sootdiff : ToolRun
deriving DecidableEq, Repr

/-- Result and invocation trace of compare_classfiles: the returned verdict
(or raised error), whether the package extraction step was reached, and
whether the sootdiff equivalence tool was invoked. -/
structure CompareTrace where
  result : Except PyError (Option Bool)
  pkgExtracted : Bool
  sootdiffInvoked : Bool
deriving DecidableEq, Repr

/-- Embedding of compare_classfiles of javautils.py: mismatched base names
raise ValueError immediately; then the two packages are extracted (a raised
RuntimeError propagates); the replayed classfile is staged (FileExistsError
propagates); differing packages short-circuit to a False verdict without
invoking sootdiff; otherwise sootdiff is invoked and exit status zero means
equivalent, non-zero not equivalent, and an exception or timeout while
invoking it yields the None verdict. -/
def compare_classfiles (env : CompareClassfilesEnv) : CompareTrace :=
  if env.expectedName ≠ env.replayedName then
    { result := Except.error PyError.valueError, pkgExtracted := false, sootdiffInvoked := false }
  else
    match env.expectedPkg with
    | Except.error e =>
        { result := Except.error e, pkgExtracted := true, sootdiffInvoked := false }
    | Except.ok epkg =>
        match env.replayedPkg with
        | Except.error e =>
            { result := Except.error e, pkgExtracted := true, sootdiffInvoked := false }
        | Except.ok rpkg =>
            if env.copyOk = false then
              { result := Except.error PyError.fileExistsError
                pkgExtracted := true
                sootdiffInvoked := false }
            else if epkg ≠ rpkg then
              { result := Except.ok (some false)
                pkgExtracted := true
                sootdiffInvoked := false }
            else
              match env.sootdiff with
              | ToolRun.raises =>
                  { result := Except.ok none, pkgExtracted := true, sootdiffInvoked := true }
              | ToolRun.exits c =>
                  { result := Except.ok (some (decide (c = 0)))
                    pkgExtracted := true
                    sootdiffInvoked := true }

/-- C4: with matching base names and successful package extraction and
staging, compare_classfiles returns the False verdict without invoking the
sootdiff equivalence tool whenever the two packages differ; when the packages
agree the verdict is True exactly on exit status zero of sootdiff, False on a
non-zero exit status, and None when invoking sootdiff raises or times out. -/
theorem C4_compare_classfiles_packages (env : CompareClassfilesEnv) (ep rp : String)
    (hname : env.expectedName = env.replayedName)
    (hep : env.expectedPkg = Except.ok ep)
    (hrp : env.replayedPkg = Except.ok rp)
    (hcopy : env.copyOk = true) :
    (ep ≠ rp →
      (compare_classfiles env).result = Except.ok (some false) ∧
        (compare_classfiles env).sootdiffInvoked = false) ∧
    (ep = rp →
      (env.sootdiff = ToolRun.raises → (compare_classfiles env).result = Except.ok none) ∧
        ∀ c, env.sootdiff = ToolRun.exits c →
          (compare_classfiles env).result = Except.ok (some (decide (c = 0)))) := by
  constructor
  · intro hne
    simp [compare_classfiles, hname, hep, hrp, hcopy, hne]
  · intro heq
    constructor
    · intro hraises
      simp [compare_classfiles, hname, hep, hrp, hcopy, heq, hraises]
    · intro c hc
      simp [compare_classfiles, hname, hep, hrp, hcopy, heq, hc]

/-- Environment of the C4 witness: same base name, differing packages. -/
def c4Env : CompareClassfilesEnv :=
  { expectedName := "Foo.class"
    replayedName := "Foo.class"
    expectedPkg := Except.ok "org.alpha"
    replayedPkg := Except.ok "org.beta"
    copyOk := true
    sootdiff := ToolRun.exits 0 }

/-- C4 witness: the theorem applied to the concrete environment with
differing packages. -/
theorem C4_compare_classfiles_packages_witness :
    (compare_classfiles c4Env).result = Except.ok (some false) ∧
      (compare_classfiles c4Env).sootdiffInvoked = false :=
  (C4_compare_classfiles_packages c4Env "org.alpha" "org.beta" rfl rfl rfl rfl).1
    (by decide)

/-- C5 counterexample: a pkgextractor run that fails with exit status 1 makes
extract_java_package raise a RuntimeError rather than return the empty
string, refuting the claim that every failure of the utility yields the empty
string. -/
theorem C5_counterexample :
    extract_java_package (PkgRun.exits 1 "") = Except.error PyError.runtimeError ∧
      extract_java_package (PkgRun.exits 1 "") ≠ Except.ok "" := by
  constructor
  · decide
  · decide

/-- C5 (amended): an exception raised while invoking pkgextractor (including
a timeout) makes extract_java_package log and return the empty string, but a
pkgextractor run that completes with a non-zero exit status makes it raise a
RuntimeError; a run that exits zero returns the stripped standard output. -/
theorem C5_extract_java_package_amended (run : PkgRun) :
    (run = PkgRun.raises → extract_java_package run = Except.ok "") ∧
      (∀ c out, run = PkgRun.exits c out → c ≠ 0 →
        extract_java_package run = Except.error PyError.runtimeError) ∧
      (∀ c out, run = PkgRun.exits c out → c = 0 →
        extract_java_package run = Except.ok (pyStrip out)) := by
  refine ⟨?_, ?_, ?_⟩
  · intro h
    subst h
    rfl
  · intro c out h hc
    subst h
    simp [extract_java_package, hc]
  · intro c out h hc
    subst h
    simp [extract_java_package, hc]

/-- C5 witness: the amended theorem applied at a raised invocation and at a
failing exit status. -/
theorem C5_extract_java_package_amended_witness :
    extract_java_package PkgRun.raises = Except.ok "" ∧
      extract_java_package (PkgRun.exits 2 "out") = Except.error PyError.runtimeError :=
  ⟨(C5_extract_java_package_amended PkgRun.raises).1 rfl,
   (C5_extract_java_package_amended (PkgRun.exits 2 "out")).2.1 2 "out" rfl (by decide)⟩

/-- C9: configuration errors are raised, never swallowed — mismatched base
names make compare_classfiles raise ValueError before extracting packages or
invoking sootdiff, and a path without the .class suffix makes
remove_duplicate_checkcasts raise ValueError without invoking the
canonicalization tool. -/
theorem C9_configuration_errors :
    (∀ env : CompareClassfilesEnv, env.expectedName ≠ env.replayedName →
        (compare_classfiles env).result = Except.error PyError.valueError ∧
          (compare_classfiles env).pkgExtracted = false ∧
          (compare_classfiles env).sootdiffInvoked = false) ∧
      (∀ (path : String) (tool : ToolRun), pathSuffix path ≠ ".class" →
          (remove_duplicate_checkcasts path tool).result = Except.error PyError.valueError ∧
            (remove_duplicate_checkcasts path tool).toolInvoked = false) := by
  constructor
  · intro env h
    simp [compare_classfiles, h]
  · intro path tool h
    simp [remove_duplicate_checkcasts, h]

/-- Environment of the C9 witness: differing base names. -/
def c9Env : CompareClassfilesEnv :=
  { expectedName := "Foo.class"
    replayedName := "Bar.class"
    expectedPkg := Except.ok "p"
    replayedPkg := Except.ok "p"
    copyOk := true
    sootdiff := ToolRun.exits 0 }

/-- C9 witness: the theorem applied to a concrete base-name mismatch and to a
concrete non-class path. -/
theorem C9_configuration_errors_witness :
    (compare_classfiles c9Env).result = Except.error PyError.valueError ∧
      (remove_duplicate_checkcasts "pkg/Foo.java" (ToolRun.exits 0)).toolInvoked = false :=
  ⟨(C9_configuration_errors.1 c9Env (by decide)).1,
   (C9_configuration_errors.2 "pkg/Foo.java" (ToolRun.exits 0) (by decide)).2⟩

/-! Embedding of locate_classfiles of javautils.py. -/

/-- Shape of the value returned by locate_classfiles: the Python function
returns either a bare list (the early return on a missing source file) or a
2-tuple of the classfile list and the package name. -/
inductive LocateResult where
  | bare (files : List String)
  | pair (files : List String) (pkg : String)
deriving DecidableEq, Repr

/-- One candidate compiled classfile found under the build output tree,
together with the answers of the external queries locate_classfiles makes
about it: the javap provenance check against the source file name, its
declared package, and its closest enclosing pomfile. -/
structure Classfile where
  path : String
  stem : String
  fromSourceName : Bool
  pkg : String
  pomfile : String
deriving DecidableEq, Repr

/-- Inputs of locate_classfiles: whether the source path exists as a file,
the stem and declared package and closest pomfile of the source unit, and the
candidate classfiles enumerated from the build output tree. -/
structure LocateEnv where
  srcIsFile : Bool
  srcStem : String
  srcPkg : String
  srcPomfile : String
  candidates : List Classfile
deriving DecidableEq, Repr

/-- Embedding of locate_classfiles of javautils.py: a missing source file is
logged and answered with a bare empty list, otherwise the candidates are
filtered by stem (equal, or extended with the nested-type separator),
provenance, package and build module, and the sorted paths are returned in a
pair with the package name.  Python sorted() is modelled by insertion sort on
the path strings. -/
def locate_classfiles (env : LocateEnv) : LocateResult :=
  if env.srcIsFile = false then LocateResult.bare []
  else
    let name := env.srcStem
    let stemMatches := env.candidates.filter fun f =>
      (f.stem == name || pyStartsWith f.stem (name ++ "$")) && f.fromSourceName
    let classfiles := stemMatches.filter fun f =>
      f.pkg == env.srcPkg && f.pomfile == env.srcPomfile
    LocateResult.pair
      (List.insertionSort (fun a b => a ≤ b) (classfiles.map Classfile.path))
      env.srcPkg

/-- C6: a missing source file makes locate_classfiles return a bare empty
list, which is not of the list-plus-package-name pair shape produced on every
existing source file (in the source the early return is the bare literal
while the declared return type and the normal return are the 2-tuple). -/
theorem C6_locate_classfiles_shape (env : LocateEnv) :
    (env.srcIsFile = false → locate_classfiles env = LocateResult.bare []) ∧
      (env.srcIsFile = true →
        ∃ files, locate_classfiles env = LocateResult.pair files env.srcPkg ∧
          List.Sorted (fun a b => a ≤ b) files) ∧
      (∀ files pkg, LocateResult.bare ([] : List String) ≠ LocateResult.pair files pkg) := by
  refine ⟨?_, ?_, ?_⟩
  · intro h
    simp [locate_classfiles, h]
  · intro h
    refine ⟨List.insertionSort (fun a b => a ≤ b)
        (((env.candidates.filter fun f =>
              (f.stem == env.srcStem || pyStartsWith f.stem (env.srcStem ++ "$")) &&
                f.fromSourceName).filter fun f =>
            f.pkg == env.srcPkg && f.pomfile == env.srcPomfile).map Classfile.path),
      ?_, List.sorted_insertionSort _ _⟩
    simp [locate_classfiles, h]
  · intro files pkg hcontra
    cases hcontra

/-- Environment of the C6 witness with a missing source file. -/
def c6MissingEnv : LocateEnv :=
  { srcIsFile := false
    srcStem := "Foo"
    srcPkg := "org.pkg"
    srcPomfile := "proj/pom.xml"
    candidates := [] }

/-- Environment of the C6 witness with an existing source file and two
matching classfiles (outer and nested type). -/
def c6OkEnv : LocateEnv :=
  { srcIsFile := true
    srcStem := "Foo"
    srcPkg := "org.pkg"
    srcPomfile := "proj/pom.xml"
    candidates :=
      [{ path := "target/Foo$1.class"
         stem := "Foo$1"
         fromSourceName := true
         pkg := "org.pkg"
         pomfile := "proj/pom.xml" },
       { path := "target/Foo.class"
         stem := "Foo"
         fromSourceName := true
         pkg := "org.pkg"
         pomfile := "proj/pom.xml" }] }

/-- C6 witness: the theorem applied at a concrete missing source file and at
a concrete existing one. -/
theorem C6_locate_classfiles_shape_witness :
    locate_classfiles c6MissingEnv = LocateResult.bare [] ∧
      ∃ files, locate_classfiles c6OkEnv = LocateResult.pair files c6OkEnv.srcPkg ∧
        List.Sorted (fun a b => a ≤ b) files :=
  ⟨(C6_locate_classfiles_shape c6MissingEnv).1 rfl,
   (C6_locate_classfiles_shape c6OkEnv).2.1 rfl⟩

/-! Embedding of git_diff_edit_script of evaluate.py. -/

/-- Embedding of git_diff_edit_script of evaluate.py: a zero exit status of
git diff means no differences and yields the empty edit script; otherwise the
captured output is right-stripped and split on newlines, and when strip
metadata is requested (and the line list is non-empty, which it always is
after a split) the first four metadata lines are dropped and every remaining
line starting with the hunk header marker is excluded. -/
def git_diff_edit_script (returncode : Int) (stdout : String)
    (strip_metadata : Bool) : List String :=
  if returncode = 0 then []
  else
    let lines := pySplit (pyRstrip stdout)
    if strip_metadata && !lines.isEmpty then
      (lines.drop 4).filter fun l => !(pyStartsWith l "@@")
    else lines

/-- C7 counterexample: with strip-metadata requested, an errored git diff run
(non-zero exit status, empty output) yields an empty edit script even though
the exit status is not zero, refuting the claimed equivalence between an
empty result and a zero exit status. -/
theorem C7_counterexample :
    git_diff_edit_script 2 "" true = [] ∧ (2 : Int) ≠ 0 := by
  constructor
  · decide
  · decide

/-- C7 (amended): the edit script is empty when git diff exits zero, and
conversely a non-zero exit yields a non-empty script provided that, when
strip-metadata is requested, the emitted output carries at least one change
line beyond the first four metadata lines (as it does whenever the tool
honours its exit-status contract); with strip-metadata and a non-zero exit
the result is exactly the output lines after the first four with the
hunk-header lines excluded. -/
theorem C7_git_diff_edit_script_amended (rc : Int) (stdout : String) (strip : Bool)
    (hconf : rc ≠ 0 → strip = true →
      ∃ l ∈ (pySplit (pyRstrip stdout)).drop 4, pyStartsWith l "@@" = false) :
    (git_diff_edit_script rc stdout strip = [] ↔ rc = 0) ∧
      (strip = true → rc ≠ 0 →
        git_diff_edit_script rc stdout strip =
          ((pySplit (pyRstrip stdout)).drop 4).filter (fun l => !(pyStartsWith l "@@"))) := by
  by_cases hrc : rc = 0
  · subst hrc
    constructor
    · simp [git_diff_edit_script]
    · intro _ hcontra
      exact absurd rfl hcontra
  · have hne : pySplit (pyRstrip stdout) ≠ [] := pySplit_ne_nil _
    by_cases hstrip : strip = true
    · subst hstrip
      obtain ⟨l, hlmem, hl⟩ := hconf hrc rfl
      have hresult : git_diff_edit_script rc stdout true =
          ((pySplit (pyRstrip stdout)).drop 4).filter (fun l => !(pyStartsWith l "@@")) := by
        simp only [git_diff_edit_script, if_neg hrc]
        rw [if_pos]
        simp [List.isEmpty_iff, hne]
      refine ⟨?_, fun _ _ => hresult⟩
      rw [hresult]
      constructor
      · intro hempty
        exfalso
        have : l ∈ ((pySplit (pyRstrip stdout)).drop 4).filter
            (fun l => !(pyStartsWith l "@@")) := by
          rw [List.mem_filter]
          exact ⟨hlmem, by simp [hl]⟩
        rw [hempty] at this
        simp at this
      · intro h0
        exact absurd h0 hrc
    · have hstripf : strip = false := by
        cases strip
        · rfl
        · exact absurd rfl hstrip
      subst hstripf
      have hresult : git_diff_edit_script rc stdout false = pySplit (pyRstrip stdout) := by
        simp [git_diff_edit_script, if_neg hrc]
      refine ⟨?_, fun hcontra => by cases hcontra⟩
      rw [hresult]
      constructor
      · intro hempty
        exact absurd hempty hne
      · intro h0
        exact absurd h0 hrc

/-- Captured git diff output of the C7 witness: four file-header lines, one
hunk header, two change lines. -/
def c7Stdout : String :=
  "diff --git a/x b/x\nindex 1111..2222 100644\n--- a/x\n+++ b/x\n@@ -1 +1 @@\n-old\n+new\n"

/-- C7 witness: the amended theorem applied at a concrete non-zero exit with
realistic diff output. -/
theorem C7_git_diff_edit_script_amended_witness :
    ¬ git_diff_edit_script 1 c7Stdout true = [] ∧
      git_diff_edit_script 1 c7Stdout true = ["-old", "+new"] := by
  have h := C7_git_diff_edit_script_amended 1 c7Stdout true (by intro _ _; decide)
  constructor
  · intro hempty
    have h0 := h.1.mp hempty
    exact absurd h0 (by decide)
  · rw [h.2 rfl (by decide)]
    decide

/-! Embeddings of gumtree_edit_script and normalized_comparison of
evaluate.py. -/

/-- Embedding of gumtree_edit_script of evaluate.py: a non-zero exit status
of the gumtree tree diff raises a RuntimeError; otherwise the output lines
are returned with Match lines and whitespace-only lines excluded. -/
def gumtree_edit_script (returncode : Int) (stdout : String) :
    Except PyError (List String) :=
  if returncode ≠ 0 then Except.error PyError.runtimeError
  else
    Except.ok ((pySplit stdout).filter fun l =>
      !(pyStartsWith l "Match") && !(pyStrip l == ""))

/-- Approximation of Python int() on an already stripped string: parse an
optionally signed decimal numeral. -/
def pyInt (s : String) : Option Int :=
  s.toInt?

/-- Embedding of normalized_comparison of evaluate.py: a non-zero exit
status of the tree-comparison distance tool is logged and yields the sentinel
-1; otherwise the last non-blank stripped output line is parsed as the
distance (an absent line raises IndexError, an unparsable one ValueError). -/
def normalized_comparison (returncode : Int) (stdout : String) :
    Except PyError Int :=
  if returncode ≠ 0 then Except.ok (-1)
  else
    let lines := (pySplit stdout).filterMap fun l =>
      let t := pyStrip l
      if t = "" then none else some t
    match lines.getLast? with
    | none => Except.error PyError.indexError
    | some s =>
        match pyInt s with
        | none => Except.error PyError.valueError
        | some n => Except.ok n

/-- C8: a non-zero exit status of the gumtree tree diff makes
gumtree_edit_script raise (a hard failure), while a non-zero exit status of
the tree-comparison distance tool makes normalized_comparison return the
sentinel -1 without propagating any error. -/
theorem C8_tree_tool_failures (returncode : Int) (gumOut distOut : String)
    (h : returncode ≠ 0) :
    gumtree_edit_script returncode gumOut = Except.error PyError.runtimeError ∧
      normalized_comparison returncode distOut = Except.ok (-1) := by
  constructor
  · simp [gumtree_edit_script, h]
  · simp [normalized_comparison, h]

/-- C8 witness: the theorem applied at exit status 1 with arbitrary captured
outputs. -/
theorem C8_tree_tool_failures_witness :
    gumtree_edit_script 1 "parse error" = Except.error PyError.runtimeError ∧
      normalized_comparison 1 "boom" = Except.ok (-1) :=
  C8_tree_tool_failures 1 "parse error" "boom" (by decide)

/-! Embedding of compare_compiled_bytecode of javautils.py. -/

/-- Inputs of one iteration of the compare_compiled_bytecode loop: whether
the replayed classfile exists on disk, the replayed path handed to
remove_duplicate_checkcasts, the outcome of the canonicalization tool, and
the inputs of the compare_classfiles call. -/
structure BytecodePairEnv where
  replayedIsFile : Bool
  replayedPath : String
  checkcastTool : ToolRun
  compareEnv : CompareClassfilesEnv
deriving DecidableEq, Repr

/-- Verdict and invocation trace of one yielded pair of
compare_compiled_bytecode.  The stream elements have the optional-bool type
of compare_classfiles; the plain False yielded for a missing replayed
classfile is the some false verdict. -/
structure PairOutcome where
  verdict : Except PyError (Option Bool)
  checkcastInvoked : Bool
  sootdiffInvoked : Bool
deriving DecidableEq, Repr

/-- Embedding of the loop body of compare_compiled_bytecode of javautils.py:
a missing replayed classfile is logged and yields the False verdict without
invoking the canonicalization tool or the comparison; otherwise duplicate
checkcasts are removed from the replayed classfile (a raised error
propagates) and the pair is compared with compare_classfiles. -/
def process_classfile_pair (env : BytecodePairEnv) : PairOutcome :=
  if env.replayedIsFile = false then
    { verdict := Except.ok (some false)
      checkcastInvoked := false
      sootdiffInvoked := false }
  else
    let cc := remove_duplicate_checkcasts env.replayedPath env.checkcastTool
    match cc.result with
    | Except.error e =>
        { verdict := Except.error e
          checkcastInvoked := cc.toolInvoked
          sootdiffInvoked := false }
    | Except.ok _ =>
        let tr := compare_classfiles env.compareEnv
        { verdict := tr.result
          checkcastInvoked := cc.toolInvoked
          sootdiffInvoked := tr.sootdiffInvoked }

/-- Embedding of compare_compiled_bytecode of javautils.py: the generator
yields one PairOutcome per classfile pair, in order. -/
def compare_compiled_bytecode (envs : List BytecodePairEnv) : List PairOutcome :=
  envs.map process_classfile_pair

/-- C10: for every pair whose replayed classfile does not exist on disk,
compare_compiled_bytecode yields the definite False verdict (not the None
unknown verdict) and invokes neither the duplicate-checkcast canonicalization
tool nor the sootdiff equivalence tool for that pair. -/
theorem C10_missing_replayed_classfile (envs : List BytecodePairEnv) (i : Nat)
    (env : BytecodePairEnv) (henv : envs.get? i = some env)
    (hmiss : env.replayedIsFile = false) :
    (compare_compiled_bytecode envs).get? i =
      some { verdict := Except.ok (some false)
             checkcastInvoked := false
             sootdiffInvoked := false } := by
  unfold compare_compiled_bytecode
  rw [List.get?_eq_getElem?, List.getElem?_map]
  rw [List.get?_eq_getElem?] at henv
  rw [henv]
  simp [process_classfile_pair, hmiss]

/-- Comparison environment of the C10 witness pair. -/
def c10CompareEnv : CompareClassfilesEnv :=
  { expectedName := "Foo.class"
    replayedName := "Foo.class"
    expectedPkg := Except.ok "p"
    replayedPkg := Except.ok "p"
    copyOk := true
    sootdiff := ToolRun.exits 0 }

/-- Pair of the C10 witness: the replayed classfile is missing. -/
def c10Env : BytecodePairEnv :=
  { replayedIsFile := false
    replayedPath := "target/Foo.class"
    checkcastTool := ToolRun.exits 0
    compareEnv := c10CompareEnv }

/-- C10 witness: the theorem applied to a concrete one-pair run whose
replayed classfile is missing. -/
theorem C10_missing_replayed_classfile_witness :
    (compare_compiled_bytecode [c10Env]).get? 0 =
      some { verdict := Except.ok (some false)
             checkcastInvoked := false
             sootdiffInvoked := false } :=
  C10_missing_replayed_classfile [c10Env] 0 c10Env rfl rfl
